import Mathlib

/-!
Verification of the message-normalization and response-assembly core of the
`mcp-genAI` chat module (`src/Class/chat.py`), as a shallow embedding.

Python values, bytes and external collaborators are modelled as follows:
* bytes are `List Nat`;
* `types.Part` is an inductive over the three constructions the code uses
  (`from_text`, `from_bytes`, `from_uri`); the genai SDK stores `mime_type`
  as an optional string, which matters because `mimetypes.guess_type(p)[0]`
  can be `None`;
* the local filesystem is a function `String → OpenResult`, where opening a
  path yields its bytes, raises `FileNotFoundError`, or raises some other
  `OSError` (`PermissionError`, `IsADirectoryError`, `NotADirectoryError`, ...);
  the distinction matters because the tuple loop catches *only*
  `FileNotFoundError`;
* `mimetypes.guess_type`'s first component is a function `String → Option String`;
* the MCP HTTP endpoint is a function from tool name and params to a
  status/JSON-body pair, where JSON objects are association lists;
* a Python function that may raise returns a `PyResult`;
* `generate_legal_advice` contains `yield`, which in Python makes the whole
  function a generator function: *calling* it always produces an un-started
  generator object, `return v` inside it only sets `StopIteration.value`.
  A generator is therefore modelled by its drain result `PyResult GenTrace`:
  the list of yielded strings and the `StopIteration` value.
-/

namespace Chat

/-- Result of running Python code that may raise an uncaught exception. -/
inductive PyResult (α : Type) where
  | ok (value : α)
  | raised
deriving DecidableEq, Repr

/-- Drain result of a Python generator: the strings it yields, then the
`StopIteration` value set by a `return` statement (`none` = implicit `return None`). -/
structure GenTrace where
  yields : List String
  retval : Option String
deriving DecidableEq, Repr

/-- Python `s.startswith(p)`: `p` is a prefix of the character sequence of `s`. -/
def pyStartsWith (s p : String) : Bool :=
  p.data.isPrefixOf s.data

/-- Python `s.endswith(p)`. -/
def pyEndsWith (s p : String) : Bool :=
  p.data.reverse.isPrefixOf s.data.reverse

/-- Python `s.lower()` (ASCII case mapping, which is all the code relies on). -/
def pyLower (s : String) : String :=
  ⟨s.data.map Char.toLower⟩

/-- Replace every (left-to-right, non-overlapping) occurrence of the non-empty
pattern `p :: ps` by `rep`, as Python `str.replace` does for a non-empty pattern. -/
def replaceOcc (p : Char) (ps rep : List Char) : List Char → List Char
  | [] => []
  | c :: rest =>
    if (p :: ps).isPrefixOf (c :: rest) then
      rep ++ replaceOcc p ps rep (rest.drop ps.length)
    else
      c :: replaceOcc p ps rep rest
termination_by l => l.length
decreasing_by
  · simp only [List.length_cons, List.length_drop]
    exact Nat.lt_succ_of_le (Nat.sub_le _ _)
  · simp

/-- Python `s.replace(pat, rep)`; the code only calls it with the non-empty
pattern `"what is"`, and for a non-empty pattern this is Python's semantics. -/
def pyReplace (s pat rep : String) : String :=
  match pat.data with
  | [] => s
  | p :: ps => ⟨replaceOcc p ps rep.data s.data⟩

/-- Python `s.strip(chars)`: remove leading and trailing characters that are
members of `chars`. -/
def pyStrip (chars : List Char) (s : String) : String :=
  ⟨((s.data.dropWhile (fun c => chars.contains c)).reverse.dropWhile
      (fun c => chars.contains c)).reverse⟩

/-- The base64 alphabet used by `base64.b64encode`. -/
def b64Alphabet : List Char :=
  "ABCDEFGHIJKLMNOPQRSTUVWXYZabcdefghijklmnopqrstuvwxyz0123456789+/".data

/-- The base64 digit for a 6-bit value. -/
def b64c (n : Nat) : Char :=
  b64Alphabet.getD n '='

/-- Standard base64 encoding of a byte sequence, with `=` padding
(`base64.b64encode(data).decode("utf-8")`). -/
def base64Chars : List Nat → List Char
  | [] => []
  | [a] => [b64c (a / 4 % 64), b64c (a % 4 * 16), '=', '=']
  | [a, b] => [b64c (a / 4 % 64), b64c (a % 4 * 16 + b / 16), b64c (b % 16 * 4), '=']
  | a :: b :: c :: rest =>
    b64c (a / 4 % 64) :: b64c (a % 4 * 16 + b / 16) ::
      b64c (b % 16 * 4 + c / 64) :: b64c (c % 64) :: base64Chars rest

/-- `base64.b64encode(data).decode("utf-8")` as a string. -/
def base64Encode (data : List Nat) : String :=
  ⟨base64Chars data⟩

/-- A `google.genai.types.Part`, restricted to the three constructions the
code performs: `Part.from_text`, `Part.from_bytes` (a `Blob` in `inline_data`),
and `Part.from_uri` (`file_data`).  `mime_type` is optional in the SDK, and the
code can genuinely pass `None` (from `mimetypes.guess_type(p)[0]`). -/
inductive Part where
  | text (value : String)
  | inlineData (data : List Nat) (mimeType : Option String)
  | fileData (fileUri : String) (mimeType : Option String)
deriving DecidableEq, Repr

/-- A PIL image object; the only thing the code does with one is serialize it
with `image.save(..., format="PNG")`, so the model carries that encoding. -/
structure PILImage where
  pngBytes : List Nat
deriving DecidableEq, Repr

/-- `get_bytes_from_image(image, mime_type="PNG")`: serialize a PIL image.
The code always calls it with format `"PNG"`. -/
def get_bytes_from_image (image : PILImage) (mimeType : String) : List Nat :=
  image.pngBytes

/-- A tuple element of a `MixedSequence` input: a string, or a value of any
other type (which the code ignores with `pass`). -/
inductive TupleItem where
  | str (s : String)
  | other
deriving DecidableEq, Repr

/-- A Python value that can appear as a message / history `content`:
string, `{'text': ..., 'files': [...]}` dict (an `Option` field records whether
the key is present), PIL image, bytes, tuple, a generator object (modelled by
its drain result), or `None`. -/
inductive PyVal where
  | str (s : String)
  | dict (text : Option String) (files : Option (List String))
  | image (img : PILImage)
  | bytes (b : List Nat)
  | tuple (items : List TupleItem)
  | gen (drained : PyResult GenTrace)
  | noneV
deriving DecidableEq, Repr

/-- Python truthiness of a `PyVal` (`if user_message:`): empty string, empty
bytes, empty tuple, empty dict and `None` are falsy; objects are truthy. -/
def pyTruthy : PyVal → Bool
  | .str s => !(s == "")
  | .dict t f => t.isSome || f.isSome
  | .image _ => true
  | .bytes b => !b.isEmpty
  | .tuple items => !items.isEmpty
  | .gen _ => true
  | .noneV => false

/-- The outcome of `open(file_path, "rb")` + `read()` on the local
filesystem: the file's bytes, a `FileNotFoundError`, or some other `OSError`
(`PermissionError`, `IsADirectoryError`, `NotADirectoryError`, ...).  The split
between the two error constructors is observable in the source: the tuple loop
of `get_parts_from_message` catches only `FileNotFoundError`. -/
inductive OpenResult where
  | ok (data : List Nat)
  | fileNotFound
  | otherOSError
deriving DecidableEq, Repr

/-- What a call to `get_part_from_file` does: produce a part, or let one of
the two kinds of `open` exception propagate to the caller. -/
inductive PartResult where
  | ok (p : Part)
  | fileNotFound
  | otherOSError
deriving DecidableEq, Repr

/-- `get_part_from_file(file_path)`: a `gs://` URI becomes a `from_uri` part
with mime type `"application/pdf"`; otherwise the mime type is
`mimetypes.guess_type(file_path)[0]` (a tuple is always truthy, so the
`"application/octet-stream"` branch of the source is dead and the possibly-`None`
first component is used), and the file is read; the function itself catches
nothing, so whichever exception `open` raises propagates. -/
def get_part_from_file (fs : String → OpenResult) (guess : String → Option String)
    (file_path : String) : PartResult :=
  if pyStartsWith file_path "gs://" then
    .ok (.fileData file_path (some "application/pdf"))
  else
    match fs file_path with
    | .ok data => .ok (.inlineData data (guess file_path))
    | .fileNotFound => .fileNotFound
    | .otherOSError => .otherOSError

/-- The `for file_path in message["files"]` loop: each file produces one part
via `get_part_from_file`; nothing is caught here, so any `open` exception
(of either kind) propagates out of `get_parts_from_message`. -/
def filesParts (fs : String → OpenResult) (guess : String → Option String) :
    List String → PyResult (List Part)
  | [] => .ok []
  | f :: rest =>
    match get_part_from_file fs guess f with
    | .ok p =>
      match filesParts fs guess rest with
      | .ok ps => .ok (p :: ps)
      | .raised => .raised
    | .fileNotFound => .raised
    | .otherOSError => .raised

/-- One iteration of the tuple loop of `get_parts_from_message`: a string item
that looks like a path (`/`, `./` or `../` prefix) is loaded via
`get_part_from_file` inside `try/except FileNotFoundError`, falling back to a
text part *only* for `FileNotFoundError`; any other `OSError` from `open` is
not caught and propagates; a non-path string becomes a text part; non-string
items are `pass`ed. -/
def tuple_item_parts (fs : String → OpenResult) (guess : String → Option String)
    (item : TupleItem) : PyResult (List Part) :=
  match item with
  | .str s =>
    if pyStartsWith s "/" || pyStartsWith s "./" || pyStartsWith s "../" then
      match get_part_from_file fs guess s with
      | .ok p => .ok [p]
      | .fileNotFound => .ok [Part.text s]
      | .otherOSError => .raised
    else .ok [Part.text s]
  | .other => .ok []

/-- The whole tuple loop of `get_parts_from_message`; the first uncaught
exception aborts the loop and propagates. -/
def tupleParts (fs : String → OpenResult) (guess : String → Option String) :
    List TupleItem → PyResult (List Part)
  | [] => .ok []
  | item :: rest =>
    match tuple_item_parts fs guess item with
    | .ok ps =>
      match tupleParts fs guess rest with
      | .ok rs => .ok (ps ++ rs)
      | .raised => .raised
    | .raised => .raised

/-- The `parts` list built by the `isinstance` dispatch of
`get_parts_from_message`, before the empty-message sentinel is applied.
Branches in source order: dict, str, PIL image, bytes, tuple; anything else
falls through and contributes nothing. -/
def rawParts (fs : String → OpenResult) (guess : String → Option String) :
    PyVal → PyResult (List Part)
  | .dict text files =>
    let tparts : List Part :=
      match text with
      | some t => if t = "" then [] else [Part.text t]
      | Option.none => []
    (match files with
     | some fl =>
       (match filesParts fs guess fl with
        | .ok fparts => .ok (tparts ++ fparts)
        | .raised => .raised)
     | Option.none => .ok tparts)
  | .str s => .ok (if s = "" then [] else [Part.text s])
  | .image img => .ok [Part.inlineData (get_bytes_from_image img "PNG") (some "image/png")]
  | .bytes b => .ok [Part.inlineData b (some "image/jpeg")]
  | .tuple items =>
    (match tupleParts fs guess items with
     | .ok ps => .ok ps
     | .raised => .raised)
  | .gen _ => .ok []
  | .noneV => .ok []

/-- `if not parts: parts.append(types.Part.from_text(text=" "))`. -/
def withSentinel (parts : List Part) : List Part :=
  if parts.isEmpty then [Part.text " "] else parts

/-- `get_parts_from_message(message)`: the `isinstance` dispatch followed by
the single-space sentinel for an otherwise empty part list. -/
def get_parts_from_message (fs : String → OpenResult)
    (guess : String → Option String) (message : PyVal) : PyResult (List Part) :=
  match rawParts fs guess message with
  | .ok parts => .ok (withSentinel parts)
  | .raised => .raised

/-- The result of `convert_part_to_output_type`: a string, or a PIL image
decoded from inline bytes by `convert_blob_to_image` (modelled by its bytes). -/
inductive OutputItem where
  | str (s : String)
  | image (data : List Nat)
deriving DecidableEq, Repr

/-- Rendering `None` mime types the way a Python f-string does. -/
def pyStrOfOpt : Option String → String
  | some s => s
  | Option.none => "None"

/-- `image_blob_to_markdown_base64(blob)`:
`f'<img src="data:{blob.mime_type};base64,{base64_string}">'`. -/
def image_blob_to_markdown_base64 (data : List Nat) (mimeType : Option String) : String :=
  "<img src=\"data:" ++ pyStrOfOpt mimeType ++ ";base64," ++ base64Encode data ++ "\">"

/-- `convert_part_to_output_type(part, use_markdown)`: a truthy `part.text`
(non-empty string) is returned verbatim; otherwise a truthy `part.inline_data`
is rendered as inline markup (`use_markdown`) or decoded to a PIL image; any
other part (including `file_data` parts) yields `None`. -/
def convert_part_to_output_type (part : Part) (use_markdown : Bool) : Option OutputItem :=
  match part with
  | .text v => if v = "" then Option.none else some (.str v)
  | .inlineData data mt =>
    if use_markdown then some (.str (image_blob_to_markdown_base64 data mt))
    else some (.image data)
  | .fileData _ _ => Option.none

/-- A `types.Content`: optional role and optional part list. -/
structure Content where
  role : Option String
  parts : Option (List Part)
deriving DecidableEq, Repr

/-- `convert_content_to_output_list(content, use_markdown)`: `None` content or
`None` parts give `[]`; otherwise each part is converted and the `None`
results are filtered out. -/
def convert_content_to_output_list (content : Option Content) (use_markdown : Bool) :
    List OutputItem :=
  match content with
  | Option.none => []
  | some c =>
    match c.parts with
    | Option.none => []
    | some ps => ps.filterMap (fun p => convert_part_to_output_type p use_markdown)

/-- A streamed response candidate: its optional `content`. -/
structure Candidate where
  content : Option Content
deriving DecidableEq, Repr

/-- One chunk of `generate_content_stream`: an optional candidate list whose
elements may themselves be `None`. -/
structure Chunk where
  candidates : Option (List (Option Candidate))
deriving DecidableEq, Repr

/-- The guard `chunk.candidates and chunk.candidates[0] and
chunk.candidates[0].content`: the candidate list must be present and
non-empty, its first element non-`None`, and that candidate's content
present; otherwise the chunk is skipped. -/
def chunkContent (chunk : Chunk) : Option Content :=
  match chunk.candidates with
  | some (some cand :: _) => cand.content
  | _ => Option.none

/-- The string items among a chunk's converted outputs
(`[p for p in chunk_parts if isinstance(p, str)]`). -/
def textStrings (items : List OutputItem) : List String :=
  items.filterMap (fun it =>
    match it with
    | .str s => some s
    | .image _ => Option.none)

/-- The increment one chunk contributes in the streaming branch: `None` when
the candidate guard fails or when there are no text strings to join
(`if text_chunks:`), otherwise the joined text strings. -/
def chunkIncrement (chunk : Chunk) : Option String :=
  match chunkContent chunk with
  | Option.none => Option.none
  | some c =>
    let texts := textStrings (convert_content_to_output_list (some c) true)
    if texts.isEmpty then Option.none else some (String.join texts)

/-- The characters one chunk adds to `full_response_text` in the batch branch
(`full_response_text += "".join(text_content)`, inside the candidate guard). -/
def batchContribution (chunk : Chunk) : String :=
  match chunkContent chunk with
  | Option.none => ""
  | some c => String.join (textStrings (convert_content_to_output_list (some c) true))

/-- The sequence of strings the `stream_response=True` branch yields, in chunk
arrival order. -/
def streamYields (chunks : List Chunk) : List String :=
  chunks.filterMap chunkIncrement

/-- The `full_response_text` accumulated by the `stream_response=False` branch
after draining every chunk. -/
def batchText (chunks : List Chunk) : String :=
  chunks.foldl (fun acc chunk => acc ++ batchContribution chunk) ""

/-- An HTTP response from the MCP server: status code and JSON body
(a JSON object as an association list). -/
structure HttpResp where
  status : Nat
  body : List (String × String)

/-- `call_mcp_tool(tool_name, params)`: POST to the fixed server (the network
is the function `net`), return the JSON body on status 200 and `None`
otherwise. -/
def call_mcp_tool (net : String → List (String × String) → HttpResp)
    (tool_name : String) (params : List (String × String)) :
    Option (List (String × String)) :=
  let response := net tool_name params
  if response.status = 200 then some response.body else Option.none

/-- Python `d[k]` / `"k" in d` on the JSON-object model: the value at the key,
if present. -/
def dictGet (d : List (String × String)) (k : String) : Option String :=
  match d.find? (fun kv => kv.1 == k) with
  | some kv => some kv.2
  | Option.none => Option.none

/-- `user_message.lower().replace("what is", "").strip("? .")`. -/
def bypassTerm (s : String) : String :=
  pyStrip ['?', ' ', '.'] (pyReplace (pyLower s) "what is" "")

/-- The MCP bypass of `generate_legal_advice`: on a string message whose
lowercasing starts with `"what is"`, look the term up; if the response dict is
truthy and has a `"definition"` key, that definition is returned (ending the
generator).  Any other message shape, a failed call, or a missing key falls
through to the backend. -/
def bypassResult (net : String → List (String × String) → HttpResp)
    (user_message : PyVal) : Option String :=
  match user_message with
  | .str s =>
    if pyStartsWith (pyLower s) "what is" then
      match call_mcp_tool net "get_legal_term_definition" [("term", bypassTerm s)] with
      | some d =>
        if d.isEmpty then Option.none
        else
          match dictGet d "definition" with
          | some v => some v
          | Option.none => Option.none
      | Option.none => Option.none
    else Option.none
  | _ => Option.none

/-- A `{"role": ..., "content": ...}` chat-history entry. -/
structure HistEntry where
  role : String
  content : PyVal
deriving DecidableEq, Repr

/-- The history loop of `generate_legal_advice`: each previous message's
content is normalized with `get_parts_from_message` (the resulting `contents`
only feed the external backend, but an uncaught exception raised while
normalizing propagates, so the loop is modelled by its error behaviour). -/
def normalizeHistory (fs : String → OpenResult) (guess : String → Option String) :
    List HistEntry → PyResult Unit
  | [] => .ok ()
  | e :: rest =>
    match get_parts_from_message fs guess e.content with
    | .ok _ => normalizeHistory fs guess rest
    | .raised => .raised

/-- The drain result of the generator returned by `generate_legal_advice`.
Because the function body contains `yield`, calling it in Python returns an
un-started generator; this definition is what draining that generator
produces.  Body order follows the source: build `contents` from the history
and the (truthy) current message — either step can raise — then the MCP
bypass (whose success `return`s the definition, yielding nothing), then the
backend chunks (`backend`) are consumed: with `stream_response=True` each
chunk's non-empty joined text is yielded; otherwise everything is concatenated
and `return`ed as the `StopIteration` value. -/
def generate_legal_advice (fs : String → OpenResult)
    (guess : String → Option String)
    (net : String → List (String × String) → HttpResp)
    (backend : List Chunk) (user_message : PyVal)
    (chat_history : List HistEntry) (stream_response : Bool) : PyResult GenTrace :=
  match normalizeHistory fs guess chat_history with
  | .raised => .raised
  | .ok _ =>
    let userStep : PyResult Unit :=
      if pyTruthy user_message then
        match get_parts_from_message fs guess user_message with
        | .ok _ => .ok ()
        | .raised => .raised
      else .ok ()
    match userStep with
    | .raised => .raised
    | .ok _ =>
      match bypassResult net user_message with
      | some defn => .ok ⟨[], some defn⟩
      | Option.none =>
        if stream_response then .ok ⟨streamYields backend, Option.none⟩
        else .ok ⟨[], some (batchText backend)⟩

/-- What `automated_chat` hands back: the value bound to `response` (or
`full_response`) and the final `chat_history` list. -/
structure ChatResult where
  response : PyVal
  history : List HistEntry
deriving DecidableEq, Repr

/-- `automated_chat(question, file_path, stream_response, chat_history)`:
build `user_input` (a dict when a file path is given, else the question
string), append the user turn, call `generate_legal_advice`.  With
`stream_response=True` the returned generator is drained by the `for` loop
(exceptions propagate) and the concatenation is appended and returned; with
`stream_response=False` the call's result — an un-started generator object,
since `generate_legal_advice` is a generator function — is itself appended to
the history and returned. -/
def automated_chat (fs : String → OpenResult)
    (guess : String → Option String)
    (net : String → List (String × String) → HttpResp)
    (backend : List Chunk) (question : String) (file_path : Option String)
    (stream_response : Bool) (chat_history : List HistEntry) : PyResult ChatResult :=
  let user_input : PyVal :=
    match file_path with
    | some fp => .dict (some question) (some [fp])
    | Option.none => .str question
  let hist1 := chat_history ++ [⟨"user", user_input⟩]
  if stream_response then
    match generate_legal_advice fs guess net backend user_input hist1 true with
    | .raised => .raised
    | .ok t =>
      let full := String.join t.yields
      .ok ⟨.str full, hist1 ++ [⟨"model", .str full⟩]⟩
  else
    let g : PyVal := .gen (generate_legal_advice fs guess net backend user_input hist1 false)
    .ok ⟨g, hist1 ++ [⟨"model", g⟩]⟩

/-! ### Concrete fixtures used to instantiate the theorems -/

/-- A filesystem on which every `open` raises `FileNotFoundError`. -/
def fs0 : String → OpenResult := fun _ => .fileNotFound

/-- A filesystem on which opening `"./file.txt/x"` raises a
`NotADirectoryError` (an `OSError` that is not a `FileNotFoundError`) and
every other path is missing. -/
def fsNotADir : String → OpenResult :=
  fun p => if p = "./file.txt/x" then .otherOSError else .fileNotFound

/-- A `mimetypes.guess_type` whose first component is always `None`. -/
def g0 : String → Option String := fun _ => Option.none

/-- An MCP server that always answers 404. -/
def net404 : String → List (String × String) → HttpResp := fun _ _ => ⟨404, []⟩

/-- An MCP server that always answers 200 with a definition payload. -/
def net200 : String → List (String × String) → HttpResp :=
  fun _ _ => ⟨200, [("definition", "security for release")]⟩

/-- A well-formed streamed chunk holding a single text part. -/
def mkTextChunk (s : String) : Chunk :=
  ⟨some [some ⟨some ⟨some "model", some [Part.text s]⟩⟩]⟩

/-- The three-chunk backend stream `"a"`, `"b"`, `"c"`. -/
def abcChunks : List Chunk := [mkTextChunk "a", mkTextChunk "b", mkTextChunk "c"]

/-- A chunk with no candidate list at all. -/
def chunkNone : Chunk := ⟨Option.none⟩

/-- A filesystem holding exactly the two local attachments used as witnesses. -/
def fsTwo : String → OpenResult :=
  fun p => if p = "/a.png" then .ok [1] else if p = "/b.pdf" then .ok [2, 3] else .fileNotFound

/-! ### Helper lemmas -/

theorem one_le_withSentinel (parts : List Part) : 1 ≤ (withSentinel parts).length := by
  cases parts <;> simp [withSentinel]

theorem str_append_empty (s : String) : s ++ "" = s := by
  cases s with
  | mk data => show String.mk (data ++ []) = String.mk data; rw [List.append_nil]

theorem data_head_of_isPrefixOf (s : String) (c : Char) (rest : List Char)
    (h : (c :: rest).isPrefixOf s.data = true) : ∃ tl, s.data = c :: tl := by
  cases hd : s.data with
  | nil => rw [hd] at h; simp [List.isPrefixOf] at h
  | cons x tl =>
    rw [hd] at h
    simp [List.isPrefixOf] at h
    exact ⟨tl, by rw [h.1]⟩

theorem pathlike_not_gs (s : String)
    (h : pyStartsWith s "/" = true ∨ pyStartsWith s "./" = true ∨ pyStartsWith s "../" = true) :
    pyStartsWith s "gs://" = false := by
  unfold pyStartsWith at *
  rcases h with h | h | h
  · obtain ⟨tl, hd⟩ := data_head_of_isPrefixOf s '/' [] h
    rw [hd]; simp [List.isPrefixOf]
  · obtain ⟨tl, hd⟩ := data_head_of_isPrefixOf s '.' [ '/' ] h
    rw [hd]; simp [List.isPrefixOf]
  · obtain ⟨tl, hd⟩ := data_head_of_isPrefixOf s '.' [ '.', '/' ] h
    rw [hd]; simp [List.isPrefixOf]

theorem gs_not_pathlike (s : String) (h : pyStartsWith s "gs://" = true) :
    pyStartsWith s "/" = false ∧ pyStartsWith s "./" = false ∧ pyStartsWith s "../" = false := by
  unfold pyStartsWith at *
  obtain ⟨tl, hd⟩ := data_head_of_isPrefixOf s 'g' [ 's', ':', '/', '/' ] h
  refine ⟨?_, ?_, ?_⟩ <;> (rw [hd]; simp [List.isPrefixOf])

theorem normalizeHistory_append_ok (fs : String → OpenResult)
    (guess : String → Option String) (l1 l2 : List HistEntry)
    (h : normalizeHistory fs guess l1 = .ok ()) :
    normalizeHistory fs guess (l1 ++ l2) = normalizeHistory fs guess l2 := by
  induction l1 with
  | nil => simp
  | cons e rest ih =>
    simp only [List.cons_append, normalizeHistory] at h ⊢
    cases hge : get_parts_from_message fs guess e.content with
    | ok l => rw [hge] at h; exact ih h
    | raised => rw [hge] at h; exact PyResult.noConfusion h

/-! ### Claims -/

/-- Claim C2, counterexample: the tab character is a whitespace-only raw text
input, yet `get_parts_from_message` returns a Text part holding the tab
verbatim, not a single space — a non-empty whitespace-only string is truthy in
Python, so it never reaches the empty-message sentinel. -/
theorem C2_counterexample_tab :
    get_parts_from_message fs0 g0 (.str "\t") = .ok [Part.text "\t"]
      ∧ get_parts_from_message fs0 g0 (.str "\t") ≠ .ok [Part.text " "] :=
  ⟨rfl, by decide⟩

/-- Claim C2 as amended: only the *empty* raw text input normalizes to the
single-space sentinel Text part; every non-empty input — whitespace-only
included — normalizes to exactly one Text part holding the input verbatim. -/
theorem C2_amended_empty_text_sentinel (fs : String → OpenResult)
    (guess : String → Option String) :
    get_parts_from_message fs guess (.str "") = .ok [Part.text " "]
      ∧ ∀ s : String, s ≠ "" → get_parts_from_message fs guess (.str s) = .ok [Part.text s] :=
  ⟨rfl, fun s hs => by simp [get_parts_from_message, rawParts, withSentinel, hs]⟩

/-- Claim C2, witness: the two-space input (non-empty) passes through verbatim. -/
theorem C2_witness :
    get_parts_from_message fs0 g0 (.str "  ") = .ok [Part.text "  "] :=
  (C2_amended_empty_text_sentinel fs0 g0).2 "  " (by decide)

/-- Claim C4: for every bytes input the normalizer emits exactly one Binary
part whose media type is the hardcoded `"image/jpeg"`, independent of the
byte content and of any caller context — in particular the PNG magic bytes
are labelled `image/jpeg`. -/
theorem C4_bytes_hardcoded_jpeg :
    (∀ (fs : String → OpenResult) (guess : String → Option String) (b : List Nat),
      get_parts_from_message fs guess (.bytes b) = .ok [Part.inlineData b (some "image/jpeg")])
      ∧ get_parts_from_message fs0 g0 (.bytes [137, 80, 78, 71]) =
          .ok [Part.inlineData [137, 80, 78, 71] (some "image/jpeg")] :=
  ⟨fun fs guess b => by simp [get_parts_from_message, rawParts, withSentinel], rfl⟩

/-- Claim C9: whenever `get_parts_from_message` returns (rather than raising a
`FileNotFoundError` from an unreadable dict attachment), the part list is
non-empty: the single-space sentinel is appended exactly when the per-shape
handling produced no parts. -/
theorem C9_normalize_nonempty (fs : String → OpenResult)
    (guess : String → Option String) (message : PyVal) (ps : List Part)
    (h : get_parts_from_message fs guess message = .ok ps) : 1 ≤ ps.length := by
  unfold get_parts_from_message at h
  cases hr : rawParts fs guess message with
  | ok l =>
    rw [hr] at h
    injection h with h2
    rw [← h2]
    exact one_le_withSentinel l
  | raised => rw [hr] at h; exact PyResult.noConfusion h

/-- Claim C9, witness: a `None` message (unsupported shape) normalizes to the
sentinel, a list of length 1. -/
theorem C9_witness :
    get_parts_from_message fs0 g0 .noneV = .ok [Part.text " "]
      ∧ 1 ≤ [Part.text " "].length :=
  ⟨rfl, C9_normalize_nonempty fs0 g0 .noneV [Part.text " "] rfl⟩

/-- Claim C7: InlineMarkup rendering of a Binary part with media type `m` and
bytes `b` is exactly `<img src="data:` ++ m ++ `;base64,` ++ base64(b) ++ `">`,
and on media type `"image/png"` with bytes `[1,2,3,4]` the rendered string
begins with `<img src="data:image/png;base64,` and ends with `">`. -/
theorem C7_inline_markup_rendering :
    (∀ (b : List Nat) (m : String),
      convert_part_to_output_type (Part.inlineData b (some m)) true =
        some (OutputItem.str
          ("<img src=\"data:" ++ m ++ ";base64," ++ base64Encode b ++ "\">")))
      ∧ pyStartsWith (image_blob_to_markdown_base64 [1, 2, 3, 4] (some "image/png"))
          "<img src=\"data:image/png;base64," = true
      ∧ pyEndsWith (image_blob_to_markdown_base64 [1, 2, 3, 4] (some "image/png"))
          "\">" = true :=
  ⟨fun b m => rfl, by decide, by decide⟩

/-- Claim C5, counterexample: the tuple loop catches only
`FileNotFoundError`, so a path-like item whose `open` raises a different
`OSError` — here `"./file.txt/x"`, where `open` raises `NotADirectoryError` —
makes `get_parts_from_message` raise instead of degrading to text: tuple
normalization is not exception-free. -/
theorem C5_counterexample_not_a_directory :
    get_parts_from_message fsNotADir g0 (.tuple [TupleItem.str "./file.txt/x"]) = .raised
      ∧ pyStartsWith "./file.txt/x" "./" = true :=
  ⟨rfl, by decide⟩

/-- Claim C5 as amended: within a tuple, a path-like item (prefix `/`, `./`
or `../`) whose file raises `FileNotFoundError` degrades to a Text part
holding the item string itself instead of a Binary part — also through the
whole of `get_parts_from_message` — but that is the only exception the loop
catches: a path-like item whose `open` raises any other `OSError` lets it
propagate, so normalizing a tuple can raise. -/
theorem C5_amended_degrades_only_on_missing_file (fs : String → OpenResult)
    (guess : String → Option String) :
    (∀ s : String,
      pyStartsWith s "/" = true ∨ pyStartsWith s "./" = true ∨ pyStartsWith s "../" = true →
      fs s = OpenResult.fileNotFound →
      tuple_item_parts fs guess (TupleItem.str s) = .ok [Part.text s])
      ∧ (∀ s : String,
          pyStartsWith s "/" = true ∨ pyStartsWith s "./" = true ∨ pyStartsWith s "../" = true →
          fs s = OpenResult.otherOSError →
          tuple_item_parts fs guess (TupleItem.str s) = .raised)
      ∧ ∀ s : String,
          pyStartsWith s "/" = true ∨ pyStartsWith s "./" = true ∨ pyStartsWith s "../" = true →
          fs s = OpenResult.fileNotFound →
          get_parts_from_message fs guess (.tuple [TupleItem.str s]) = .ok [Part.text s] := by
  have deg : ∀ s : String,
      pyStartsWith s "/" = true ∨ pyStartsWith s "./" = true ∨ pyStartsWith s "../" = true →
      fs s = OpenResult.fileNotFound →
      tuple_item_parts fs guess (TupleItem.str s) = .ok [Part.text s] := by
    intro s h hfs
    have hgs : pyStartsWith s "gs://" = false := pathlike_not_gs s h
    rcases h with h | h | h <;>
      simp [tuple_item_parts, get_part_from_file, h, hgs, hfs]
  refine ⟨deg, ?_, ?_⟩
  · intro s h hfs
    have hgs : pyStartsWith s "gs://" = false := pathlike_not_gs s h
    rcases h with h | h | h <;>
      simp [tuple_item_parts, get_part_from_file, h, hgs, hfs]
  · intro s h hfs
    simp [get_parts_from_message, rawParts, tupleParts, deg s h hfs, withSentinel]

/-- Claim C5, witness: a missing `./` path degrades to a verbatim Text part,
while a path whose `open` failure is not a `FileNotFoundError` propagates the
exception. -/
theorem C5_witness :
    tuple_item_parts fs0 g0 (TupleItem.str "./missing.png") = .ok [Part.text "./missing.png"]
      ∧ tuple_item_parts fsNotADir g0 (TupleItem.str "./file.txt/x") = .raised :=
  ⟨(C5_amended_degrades_only_on_missing_file fs0 g0).1 "./missing.png"
      (Or.inr (Or.inl (by decide))) rfl,
    (C5_amended_degrades_only_on_missing_file fsNotADir g0).2.1 "./file.txt/x"
      (Or.inr (Or.inl (by decide))) rfl⟩

/-- Claim C6: a dict with non-empty text `"hello"` and two resolvable local
attachments normalizes to exactly three parts in order — the Text part first,
then one Binary part per attachment in listed order; with the text key absent,
or present but empty, no Text part is emitted. -/
theorem C6_bundle_order (fs : String → OpenResult) (guess : String → Option String)
    (f1 f2 : String) (b1 b2 : List Nat)
    (h1 : pyStartsWith f1 "gs://" = false) (h2 : pyStartsWith f2 "gs://" = false)
    (hb1 : fs f1 = OpenResult.ok b1) (hb2 : fs f2 = OpenResult.ok b2) :
    get_parts_from_message fs guess (.dict (some "hello") (some [f1, f2])) =
        .ok [Part.text "hello", Part.inlineData b1 (guess f1), Part.inlineData b2 (guess f2)]
      ∧ get_parts_from_message fs guess (.dict Option.none (some [f1, f2])) =
          .ok [Part.inlineData b1 (guess f1), Part.inlineData b2 (guess f2)]
      ∧ get_parts_from_message fs guess (.dict (some "") (some [f1, f2])) =
          .ok [Part.inlineData b1 (guess f1), Part.inlineData b2 (guess f2)] := by
  refine ⟨?_, ?_, ?_⟩ <;>
    simp [get_parts_from_message, rawParts, filesParts, get_part_from_file, withSentinel,
      h1, h2, hb1, hb2]

/-- Claim C6, witness: concrete two-attachment bundle on the `fsTwo`
filesystem. -/
theorem C6_witness :
    get_parts_from_message fsTwo g0 (.dict (some "hello") (some ["/a.png", "/b.pdf"])) =
      .ok [Part.text "hello", Part.inlineData [1] (g0 "/a.png"),
        Part.inlineData [2, 3] (g0 "/b.pdf")] :=
  (C6_bundle_order fsTwo g0 "/a.png" "/b.pdf" [1] [2, 3]
    (by decide) (by decide) (by decide) (by decide)).1

/-- Claim C10: a tuple item that is a `gs://` locator string does not match
the path heuristic, so it is emitted as a verbatim Text part (never a deferred
`from_uri` Binary reference), and a non-string tuple item contributes no part
at all. -/
theorem C10_gs_in_tuple_is_text (fs : String → OpenResult)
    (guess : String → Option String) :
    (∀ s : String, pyStartsWith s "gs://" = true →
      tuple_item_parts fs guess (TupleItem.str s) = .ok [Part.text s])
      ∧ tuple_item_parts fs guess TupleItem.other = .ok []
      ∧ ∀ s : String, pyStartsWith s "gs://" = true →
          get_parts_from_message fs guess (.tuple [TupleItem.str s, TupleItem.other]) =
            .ok [Part.text s] := by
  have key : ∀ s : String, pyStartsWith s "gs://" = true →
      tuple_item_parts fs guess (TupleItem.str s) = .ok [Part.text s] := by
    intro s h
    obtain ⟨hs1, hs2, hs3⟩ := gs_not_pathlike s h
    simp [tuple_item_parts, hs1, hs2, hs3]
  refine ⟨key, rfl, ?_⟩
  intro s h
  have hother : tuple_item_parts fs guess TupleItem.other = .ok [] := rfl
  simp [get_parts_from_message, rawParts, tupleParts, key s h, hother, withSentinel]

/-- Claim C10, witness: a concrete `gs://` locator inside a tuple. -/
theorem C10_witness :
    tuple_item_parts fs0 g0 (TupleItem.str "gs://bucket/contract.pdf") =
        .ok [Part.text "gs://bucket/contract.pdf"]
      ∧ get_parts_from_message fs0 g0
          (.tuple [TupleItem.str "gs://bucket/contract.pdf", TupleItem.other]) =
          .ok [Part.text "gs://bucket/contract.pdf"] :=
  ⟨(C10_gs_in_tuple_is_text fs0 g0).1 "gs://bucket/contract.pdf" (by decide),
    (C10_gs_in_tuple_is_text fs0 g0).2.2 "gs://bucket/contract.pdf" (by decide)⟩

/-- A chunk whose candidate/content chain is broken or whose part list is
absent or empty — the shapes claim C8 calls "content/parts field absent or
empty". -/
def chunkAbsentOrEmpty (chunk : Chunk) : Bool :=
  match chunkContent chunk with
  | Option.none => true
  | some c =>
    match c.parts with
    | Option.none => true
    | some ps => ps.isEmpty

/-- Claim C8: a chunk with an absent or empty content/parts field is skipped
without error — it contributes no increment to the stream sequence (in
particular no empty-string increment) and zero characters to the batch text:
removing it changes neither. -/
theorem C8_empty_chunk_skipped (chunk : Chunk) (h : chunkAbsentOrEmpty chunk = true) :
    chunkIncrement chunk = Option.none
      ∧ batchContribution chunk = ""
      ∧ (∀ pre post, streamYields (pre ++ chunk :: post) = streamYields (pre ++ post))
      ∧ ∀ pre post, batchText (pre ++ chunk :: post) = batchText (pre ++ post) := by
  unfold chunkAbsentOrEmpty at h
  have hib : chunkIncrement chunk = Option.none ∧ batchContribution chunk = "" := by
    cases hc : chunkContent chunk with
    | none => simp [chunkIncrement, batchContribution, hc]
    | some c =>
      rw [hc] at h
      simp only [] at h
      cases hp : c.parts with
      | none =>
        simp [chunkIncrement, batchContribution, hc, convert_content_to_output_list, hp,
          textStrings, String.join]
      | some ps =>
        rw [hp] at h
        simp only [] at h
        have hps : ps = [] := by
          cases ps with
          | nil => rfl
          | cons a tl => simp [List.isEmpty] at h
        subst hps
        simp [chunkIncrement, batchContribution, hc, convert_content_to_output_list, hp,
          textStrings, String.join]
  obtain ⟨hi, hb⟩ := hib
  refine ⟨hi, hb, ?_, ?_⟩
  · intro pre post
    simp [streamYields, List.filterMap_append, List.filterMap_cons, hi]
  · intro pre post
    unfold batchText
    rw [List.foldl_append, List.foldl_append, List.foldl_cons, hb, str_append_empty]

/-- Claim C8, witness: a candidate-less chunk dropped into the middle of the
`"a"`, `"b"` stream changes nothing. -/
theorem C8_witness :
    chunkIncrement chunkNone = Option.none
      ∧ batchContribution chunkNone = ""
      ∧ streamYields [mkTextChunk "a", chunkNone, mkTextChunk "b"] =
          streamYields [mkTextChunk "a", mkTextChunk "b"]
      ∧ batchText [mkTextChunk "a", chunkNone, mkTextChunk "b"] =
          batchText [mkTextChunk "a", mkTextChunk "b"] := by
  have T := C8_empty_chunk_skipped chunkNone (by decide)
  exact ⟨T.1, T.2.1, T.2.2.1 [mkTextChunk "a"] [mkTextChunk "b"],
    T.2.2.2 [mkTextChunk "a"] [mkTextChunk "b"]⟩

/-- Claim C1, evaluation at the failing input: with backend chunks each
holding one Text part `"a"`, `"b"`, `"c"`, the `stream_response=True` drain
yields exactly `["a","b","c"]` in order; but since `generate_legal_advice`
contains `yield`, it is a generator function, so the `stream_response=False`
call produces an un-started generator whose drain yields *nothing* and carries
`"abc"` only as its `StopIteration` value — and `automated_chat`'s batch
branch therefore stores and returns that generator object, which is not the
string `"abc"` its docstring promises. -/
theorem C1_batch_returns_generator :
    generate_legal_advice fs0 g0 net404 abcChunks (.str "hi") [] true =
        .ok ⟨["a", "b", "c"], Option.none⟩
      ∧ generate_legal_advice fs0 g0 net404 abcChunks (.str "hi") [] false =
          .ok ⟨[], some "abc"⟩
      ∧ automated_chat fs0 g0 net404 abcChunks "hi" Option.none false [] =
          .ok ⟨.gen (.ok ⟨[], some "abc"⟩),
            [⟨"user", .str "hi"⟩, ⟨"model", .gen (.ok ⟨[], some "abc"⟩)⟩]⟩
      ∧ PyVal.gen (.ok ⟨[], some "abc"⟩) ≠ PyVal.str "abc" :=
  ⟨rfl, rfl, rfl, by decide⟩

/-- Claim C3, counterexample: on the bypass input `"what is bail"` with a
successful term lookup, `automated_chat` still appends a User turn *and* a
Model turn (history grows to length 2, not 0) — and what it returns and
stores is the un-started generator object, not the definition string. -/
theorem C3_counterexample_appends_turns :
    automated_chat fs0 g0 net200 [] "what is bail" Option.none false [] =
        .ok ⟨.gen (.ok ⟨[], some "security for release"⟩),
          [⟨"user", .str "what is bail"⟩,
            ⟨"model", .gen (.ok ⟨[], some "security for release"⟩)⟩]⟩
      ∧ [(⟨"user", .str "what is bail"⟩ : HistEntry),
          ⟨"model", .gen (.ok ⟨[], some "security for release"⟩)⟩].length ≠ 0
      ∧ PyVal.gen (.ok ⟨[], some "security for release"⟩) ≠
          PyVal.str "security for release" :=
  ⟨rfl, by decide, by decide⟩

/-- Claim C3 as amended: a `"what is ..."` string input with a successful
lookup makes the drained `generate_legal_advice` body skip the backend
entirely — for every backend stream and either mode its drain result is the
definition as `StopIteration` value with no yields — and
`generate_legal_advice` itself never touches the history; but `automated_chat`
still appends a User turn before the call and a Model turn after it, the Model
turn holding the un-started generator (batch mode) or the empty drained
string (stream mode, where the definition is lost). -/
theorem C3_amended_bypass (fs : String → OpenResult) (g : String → Option String)
    (net : String → List (String × String) → HttpResp)
    (q : String) (d : List (String × String)) (v : String) (hist : List HistEntry)
    (hq : pyStartsWith (pyLower q) "what is" = true)
    (hd : call_mcp_tool net "get_legal_term_definition" [("term", bypassTerm q)] = some d)
    (hv : dictGet d "definition" = some v)
    (hh : normalizeHistory fs g hist = .ok ()) :
    (∀ backend stream,
      generate_legal_advice fs g net backend (.str q) hist stream = .ok ⟨[], some v⟩)
      ∧ (∀ backend, automated_chat fs g net backend q Option.none false hist =
          .ok ⟨.gen (.ok ⟨[], some v⟩),
            hist ++ [⟨"user", .str q⟩, ⟨"model", .gen (.ok ⟨[], some v⟩)⟩]⟩)
      ∧ (∀ backend, automated_chat fs g net backend q Option.none true hist =
          .ok ⟨.str "", hist ++ [⟨"user", .str q⟩, ⟨"model", .str ""⟩]⟩) := by
  have hne : d.isEmpty = false := by
    cases d with
    | nil => simp [dictGet] at hv
    | cons a tl => rfl
  have hbp : bypassResult net (.str q) = some v := by
    simp only [bypassResult, hq, if_true, hd, hne]
    simp [hv]
  have key : ∀ (h2 : List HistEntry), normalizeHistory fs g h2 = .ok () →
      ∀ backend stream,
        generate_legal_advice fs g net backend (.str q) h2 stream = .ok ⟨[], some v⟩ := by
    intro h2 hh2 backend stream
    unfold generate_legal_advice
    rw [hh2]
    have hu : get_parts_from_message fs g (.str q) =
        .ok (withSentinel (if q = "" then [] else [Part.text q])) := rfl
    cases hpt : pyTruthy (PyVal.str q) <;> simp [hpt, hu, hbp]
  have hh1 : normalizeHistory fs g (hist ++ [⟨"user", .str q⟩]) = .ok () := by
    rw [normalizeHistory_append_ok fs g hist _ hh]
    rfl
  refine ⟨key hist hh, ?_, ?_⟩
  · intro backend
    simp [automated_chat, key _ hh1 backend false]
  · intro backend
    simp [automated_chat, key _ hh1 backend true, String.join]

/-- Claim C3, witness: concrete bypass input, 200-status lookup, empty
history. -/
theorem C3_witness :
    generate_legal_advice fs0 g0 net200 [] (.str "what is bail") [] false =
      .ok ⟨[], some "security for release"⟩ :=
  (C3_amended_bypass fs0 g0 net200 "what is bail"
      [("definition", "security for release")] "security for release" []
      (by decide) rfl rfl rfl).1 [] false

end Chat
